import Mathlib

/-!
Shallow embedding of the mullion section-selection engine
(`src/calc.py`, constants from `src/config.py`).

Numbers are embedded as rationals.  Python float division by zero (which
yields `inf` for a positive numerator under numpy) is modelled by `WithTop ℚ`
with `⊤` standing for `+∞`; every division whose denominator can be zero in
the source goes through an explicit zero test.  DataFrames are embedded as
lists of rows; `pandas.sort_values` (an unspecified, possibly unstable sort)
is embedded as `List.insertionSort`, which produces a list sorted by the same
key.  Plot figure styling, hover text and colours are presentation-only and
are not part of the embedding; the data series feeding each plot are.
-/

namespace Mullion

/-- One row of the section catalog (columns of `df_selected` in `main.py`). -/
structure SectionRow where
  supplier : String
  profileName : String
  material : String
  reinf : Bool
  depth : ℚ
  Iyy : ℚ
  Wyy : ℚ
deriving DecidableEq, Repr

/-- The custom-section dict built in `main.py` / `custom_profile.py`:
keys `name`, `depth` (mm), `Z` (cm³), `I` (cm⁴). -/
structure CustomSection where
  name : String
  depth : ℚ
  Z : ℚ
  I : ℚ
deriving DecidableEq, Repr

/-- Material properties record (`config.material_props` values). -/
structure MatProps where
  fy : ℚ
  E : ℚ
deriving DecidableEq, Repr

/-- `config.material_props`: dictionary lookup; `none` models a `KeyError`. -/
def material_props (m : String) : Option MatProps :=
  if m = "Aluminium" then some ⟨160, 70000⟩
  else if m = "Steel" then some ⟨275, 210000⟩
  else none

/-- `config.BARRIER_LENGTH` (mm). -/
def BARRIER_LENGTH : ℚ := 1100

/-- Python `s.startswith(p)`, embedded structurally on the character
lists of the two strings so that it evaluates on literals. -/
def pyStartsWith (s p : String) : Bool :=
  p.data.isPrefixOf s.data

/-- The ULS case dispatch of `calc.generate_plots` (lines 19-28):
an if/elif chain on `ULS_case.startswith`, with `M_ULS = 0` in the
final `else` branch. -/
def M_ULS_of (ULS_case : String) (M_WL M_BL : ℚ) : ℚ :=
  if pyStartsWith ULS_case "ULS 1" then 3/2 * M_WL + 3/4 * M_BL
  else if pyStartsWith ULS_case "ULS 2" then 3/4 * M_WL + 3/2 * M_BL
  else if pyStartsWith ULS_case "ULS 3" then 3/2 * M_WL
  else if pyStartsWith ULS_case "ULS 4" then 3/2 * M_BL
  else 0

/-- Deflection limit policy of `calc.generate_plots` (lines 35-40). -/
def defl_limit_of (L : ℚ) : ℚ :=
  if L ≤ 3000 then L / 200
  else if L < 7500 then 5 + L / 300
  else L / 250

/-- Division returning `⊤` on a zero denominator: models IEEE float
division producing `inf` (numerator positive) where the source divides
by a quantity that can be zero. -/
def divTop (a b : ℚ) : WithTop ℚ :=
  if b = 0 then ⊤ else ((a / b : ℚ) : WithTop ℚ)

/-- Wind-load deflection of one candidate, `d_wl` in the source
(`5*w*L^4 / (384*E*Iyy)`); `⊤` when the denominator is zero. -/
def deflWL (E w L Iyy : ℚ) : WithTop ℚ :=
  if 384 * E * Iyy = 0 then ⊤
  else ((5 * w * L ^ 4 / (384 * E * Iyy) : ℚ) : WithTop ℚ)

/-- Barrier-load deflection of one candidate, `d_bl` in the source
(`(F_BL*BARRIER_LENGTH/(12*E*Iyy)) * (0.75*L^2 - BARRIER_LENGTH^2)`). -/
def deflBL (E F_BL L Iyy : ℚ) : WithTop ℚ :=
  if 12 * E * Iyy = 0 then ⊤
  else (((F_BL * BARRIER_LENGTH / (12 * E * Iyy)) *
          (3/4 * L ^ 2 - BARRIER_LENGTH ^ 2) : ℚ) : WithTop ℚ)

/-- Per-candidate deflection selected by the SLS case
(`defl_total = d_wl if SLS_case.startswith("SLS 1") else d_bl`). -/
def deflCase (SLS_case : String) (E w F_BL L Iyy : ℚ) : WithTop ℚ :=
  if pyStartsWith SLS_case "SLS 1" then deflWL E w L Iyy
  else deflBL E F_BL L Iyy

/-- SLS utilisation ratio `defl / defl_limit`, `⊤` when the limit is zero
(the source guards this with `np.inf`), and `⊤` propagated from an
infinite deflection. -/
def ratioSLS (defl_limit : ℚ) (d : WithTop ℚ) : WithTop ℚ :=
  if defl_limit = 0 then ⊤ else d.map (fun q => q / defl_limit)

/-- A candidate as carried through `generate_plots`: its catalog row plus
`available_cm3` (the value appended to the `available_cm3` array). -/
structure Cand where
  row : SectionRow
  avail : ℚ
deriving DecidableEq, Repr

/-- The synthetic row appended for a custom section: supplier `"Custom"`,
reinforcement flag `True`, `Iyy = I * 10000` (cm⁴→mm⁴),
`Wyy = Z * 1000` (cm³→mm³). -/
def customRowOf (m : String) (c : CustomSection) : SectionRow :=
  ⟨"Custom", c.name, m, true, c.depth, c.I * 10000, c.Z * 1000⟩

/-- Input record of `calc.generate_plots`. -/
structure PlotsInput where
  wind_pressure : ℚ
  bay_width : ℚ
  mullion_length : ℚ
  selected_barrier_load : ℚ
  ULS_case : String
  SLS_case : String
  df_selected : List SectionRow
  plot_material : String
  selected_suppliers : List String
  use_custom_section : Bool
  custom_section_data : Option CustomSection
deriving DecidableEq, Repr

/-- `df_mat`: rows of the catalog whose material equals the selected
material and whose supplier is among the selected suppliers. -/
def filteredOf (inp : PlotsInput) : List SectionRow :=
  inp.df_selected.filter
    (fun r => r.material == inp.plot_material &&
      inp.selected_suppliers.contains r.supplier)

/-- The candidate arrays after the optional custom append: filtered rows
(with `available_cm3 = Wyy / 1000`), then — when `use_custom_section` and
the custom dict is non-empty — one custom candidate whose
`available_cm3` entry is the supplied `Z` itself. -/
def candsOf (inp : PlotsInput) : List Cand :=
  (filteredOf inp).map (fun r => ⟨r, r.Wyy / 1000⟩) ++
    (match inp.use_custom_section, inp.custom_section_data with
     | true, some c => [⟨customRowOf inp.plot_material c, c.Z⟩]
     | _, _ => [])

/-- `w = wind_pressure * 0.001 * bay_width` (N/mm). -/
def wOf (inp : PlotsInput) : ℚ :=
  inp.wind_pressure * (1/1000) * inp.bay_width

/-- `M_WL = w * L^2 / 8`. -/
def M_WL_of (inp : PlotsInput) : ℚ :=
  wOf inp * inp.mullion_length ^ 2 / 8

/-- `M_BL = (selected_barrier_load * bay) * BARRIER_LENGTH / 2`. -/
def M_BL_of (inp : PlotsInput) : ℚ :=
  inp.selected_barrier_load * inp.bay_width * BARRIER_LENGTH / 2

/-- `F_BL = selected_barrier_load * bay`. -/
def F_BL_of (inp : PlotsInput) : ℚ :=
  inp.selected_barrier_load * inp.bay_width

/-- `I_req` of the SLS branch of `generate_plots` (lines 123-129), in mm⁴. -/
def I_req_of (E : ℚ) (inp : PlotsInput) : ℚ :=
  if pyStartsWith inp.SLS_case "SLS 1" then
    5 * wOf inp * inp.mullion_length ^ 4 /
      (384 * E * defl_limit_of inp.mullion_length)
  else
    (F_BL_of inp * BARRIER_LENGTH /
        (12 * E * defl_limit_of inp.mullion_length)) *
      (3/4 * inp.mullion_length ^ 2 - BARRIER_LENGTH ^ 2)

/-- One point of the 3D utilisation plot: index into the candidate arrays,
depth, supplier, profile and the two (finite) utilisation ratios. -/
structure Entry3d where
  idx : ℕ
  depth : ℚ
  supplier : String
  profile : String
  ulsU : ℚ
  slsU : ℚ
deriving DecidableEq, Repr

/-- Squared distance `ULS² + SLS²` used (under a square root) for marker
sizes and the recommendation tie-break. -/
def dist2 (e : Entry3d) : ℚ := e.ulsU ^ 2 + e.slsU ^ 2

/-- The 3D-plot filter of `generate_plots` (lines 196-206): skip a
candidate whose `available_cm3` is zero; keep it iff both ratios are ≤ 1. -/
def mk3d (Z_req_cm3 defl_limit : ℚ) (i : ℕ) (c : Cand) (d : WithTop ℚ) :
    Option Entry3d :=
  if c.avail = 0 then none
  else if Z_req_cm3 / c.avail ≤ 1 ∧ ratioSLS defl_limit d ≤ 1 then
    some ⟨i, c.row.depth, c.row.supplier, c.row.profileName,
      Z_req_cm3 / c.avail, (ratioSLS defl_limit d).untop' 0⟩
  else none

/-- The running "best" of the recommendation scan: prefer strictly
smaller depth, then (at equal depth) strictly larger squared utilisation
distance; keep the earlier candidate on exact ties.  This is the
selection performed by `min(depths_3d)` + `np.argmax` in lines 220-226:
first index among the minimum-depth entries attaining the maximum
distance. -/
def betterRec (a b : Entry3d) : Entry3d :=
  if b.depth < a.depth then b
  else if b.depth = a.depth ∧ dist2 a < dist2 b then b
  else a

/-- The recommendation of `generate_plots`: `none` iff no candidate
reached the 3D set (the "No suitable profile" text), otherwise the
minimum-depth entry with argmax tie-break. -/
def recommend : List Entry3d → Option Entry3d
  | [] => none
  | e :: es => some (es.foldl betterRec e)

/-- `Z_req_cm3 = M_ULS / fy / 1000` (lines 31-32). -/
def Z_req_cm3_of (mp : MatProps) (inp : PlotsInput) : ℚ :=
  M_ULS_of inp.ULS_case (M_WL_of inp) (M_BL_of inp) / mp.fy / 1000

/-- The per-candidate deflection array `defl_values`. -/
def deflsOf (mp : MatProps) (inp : PlotsInput) : List (WithTop ℚ) :=
  (candsOf inp).map
    (fun c => deflCase inp.SLS_case mp.E (wOf inp) (F_BL_of inp)
      inp.mullion_length c.row.Iyy)

/-- The boolean array `uls_passed = available_cm3 >= Z_req_cm3`. -/
def ulsPassedOf (mp : MatProps) (inp : PlotsInput) : List Bool :=
  (candsOf inp).map (fun c => decide (Z_req_cm3_of mp inp ≤ c.avail))

/-- `valid = np.where(uls_passed)[0]`: the indices plotted in the SLS
chart. -/
def slsIdxOf (mp : MatProps) (inp : PlotsInput) : List ℕ :=
  (List.range (candsOf inp).length).filter
    (fun i => (ulsPassedOf mp inp).getD i false)

/-- The points of the 3D utilisation plot. -/
def entries3dOf (mp : MatProps) (inp : PlotsInput) : List Entry3d :=
  ((candsOf inp).zip (deflsOf mp inp)).enum.filterMap
    (fun p => mk3d (Z_req_cm3_of mp inp) (defl_limit_of inp.mullion_length)
      p.1 p.2.1 p.2.2)

/-- Output record of `generate_plots`: the key calculation values it
returns (`Z_req_cm3`, `defl_limit`, `defl_values`) together with the load
quantities and the data series behind the three plots. -/
structure PlotsOut where
  M_WL : ℚ
  M_BL : ℚ
  M_ULS : ℚ
  fy : ℚ
  E : ℚ
  Z_req_cm3 : ℚ
  defl_limit : ℚ
  I_req_cm4 : ℚ
  cands : List Cand
  uls_passed : List Bool
  defl_values : List (WithTop ℚ)
  slsIdx : List ℕ
  entries3d : List Entry3d
  recommendation : Option Entry3d
deriving DecidableEq, Repr

/-- The body of `generate_plots` once the material is known and the
filtered catalog is non-empty. -/
def plotsOutOf (mp : MatProps) (inp : PlotsInput) : PlotsOut :=
  { M_WL := M_WL_of inp
    M_BL := M_BL_of inp
    M_ULS := M_ULS_of inp.ULS_case (M_WL_of inp) (M_BL_of inp)
    fy := mp.fy
    E := mp.E
    Z_req_cm3 := Z_req_cm3_of mp inp
    defl_limit := defl_limit_of inp.mullion_length
    I_req_cm4 := I_req_of mp.E inp / 10000
    cands := candsOf inp
    uls_passed := ulsPassedOf mp inp
    defl_values := deflsOf mp inp
    slsIdx := slsIdxOf mp inp
    entries3d := entries3dOf mp inp
    recommendation := recommend (entries3dOf mp inp) }

@[simp] lemma plotsOutOf_Z_req_cm3 (mp : MatProps) (inp : PlotsInput) :
    (plotsOutOf mp inp).Z_req_cm3 = Z_req_cm3_of mp inp := rfl

@[simp] lemma plotsOutOf_cands (mp : MatProps) (inp : PlotsInput) :
    (plotsOutOf mp inp).cands = candsOf inp := rfl

@[simp] lemma plotsOutOf_slsIdx (mp : MatProps) (inp : PlotsInput) :
    (plotsOutOf mp inp).slsIdx = slsIdxOf mp inp := rfl

@[simp] lemma plotsOutOf_entries3d (mp : MatProps) (inp : PlotsInput) :
    (plotsOutOf mp inp).entries3d = entries3dOf mp inp := rfl

@[simp] lemma plotsOutOf_recommendation (mp : MatProps) (inp : PlotsInput) :
    (plotsOutOf mp inp).recommendation = recommend (entries3dOf mp inp) := rfl

@[simp] lemma plotsOutOf_uls_passed (mp : MatProps) (inp : PlotsInput) :
    (plotsOutOf mp inp).uls_passed = ulsPassedOf mp inp := rfl

@[simp] lemma plotsOutOf_defl_limit (mp : MatProps) (inp : PlotsInput) :
    (plotsOutOf mp inp).defl_limit = defl_limit_of inp.mullion_length := rfl

@[simp] lemma plotsOutOf_I_req_cm4 (mp : MatProps) (inp : PlotsInput) :
    (plotsOutOf mp inp).I_req_cm4 = I_req_of mp.E inp / 10000 := rfl

@[simp] lemma plotsOutOf_M_ULS (mp : MatProps) (inp : PlotsInput) :
    (plotsOutOf mp inp).M_ULS =
      M_ULS_of inp.ULS_case (M_WL_of inp) (M_BL_of inp) := rfl

@[simp] lemma plotsOutOf_M_WL (mp : MatProps) (inp : PlotsInput) :
    (plotsOutOf mp inp).M_WL = M_WL_of inp := rfl

@[simp] lemma plotsOutOf_M_BL (mp : MatProps) (inp : PlotsInput) :
    (plotsOutOf mp inp).M_BL = M_BL_of inp := rfl

@[simp] lemma plotsOutOf_fy (mp : MatProps) (inp : PlotsInput) :
    (plotsOutOf mp inp).fy = mp.fy := rfl

@[simp] lemma plotsOutOf_E (mp : MatProps) (inp : PlotsInput) :
    (plotsOutOf mp inp).E = mp.E := rfl

@[simp] lemma plotsOutOf_defl_values (mp : MatProps) (inp : PlotsInput) :
    (plotsOutOf mp inp).defl_values = deflsOf mp inp := rfl

/-- `calc.generate_plots`: the material lookup can fail with a `KeyError`
(unknown material), and an empty filtered catalog raises
`ValueError("No sections selected.")` — note this check happens before
the custom section is appended. -/
def generate_plots (inp : PlotsInput) : Except String PlotsOut :=
  match material_props inp.plot_material with
  | none => Except.error "KeyError"
  | some mp =>
    if filteredOf inp = [] then Except.error "No sections selected."
    else Except.ok (plotsOutOf mp inp)

/-- Projection used to state facts about the `Z_req_cm3` of a possibly
failed evaluation. -/
def zreqOfResult : Except String PlotsOut → Option ℚ
  | Except.ok o => some o.Z_req_cm3
  | Except.error _ => none

/-- Projection for `I_req_cm4` of a possibly failed evaluation. -/
def ireqOfResult : Except String PlotsOut → Option ℚ
  | Except.ok o => some o.I_req_cm4
  | Except.error _ => none

/-- Input record of `calc.generate_section_database`. -/
structure DBInput where
  df_selected : List SectionRow
  plot_material : String
  selected_suppliers : List String
  custom_section_data : Option CustomSection
  use_custom_section : Bool
  wind_pressure : ℚ
  bay_width : ℚ
  mullion_length : ℚ
  selected_barrier_load : ℚ
  SLS_case : String
  defl_limit : ℚ
  Z_req_cm3 : ℚ
deriving DecidableEq, Repr

/-- The material/supplier filter of `generate_section_database`. -/
def dbFiltered (inp : DBInput) : List SectionRow :=
  inp.df_selected.filter
    (fun r => r.material == inp.plot_material &&
      inp.selected_suppliers.contains r.supplier)

/-- `df_mat` after the optional `pd.concat` with the custom row. -/
def dbWithCustom (inp : DBInput) : List SectionRow :=
  dbFiltered inp ++
    (match inp.use_custom_section, inp.custom_section_data with
     | true, some c => [customRowOf inp.plot_material c]
     | _, _ => [])

/-- One row of the ranked section table with its computed columns
`ULS Utilisation`, `SLS Utilisation`, `Max Utilisation`. -/
structure EvalRow where
  row : SectionRow
  ulsUtil : WithTop ℚ
  slsUtil : WithTop ℚ
  maxUtil : WithTop ℚ
deriving DecidableEq, Repr

/-- Computation of the three utilisation columns for one row
(`generate_section_database` lines 292-308). -/
def evalRowOf (E : ℚ) (inp : DBInput) (r : SectionRow) : EvalRow :=
  let u := divTop inp.Z_req_cm3 (r.Wyy / 1000)
  let d := deflCase inp.SLS_case E
    (inp.wind_pressure * (1/1000) * inp.bay_width)
    (inp.selected_barrier_load * inp.bay_width) inp.mullion_length r.Iyy
  let s := ratioSLS inp.defl_limit d
  ⟨r, u, s, max u s⟩

/-- All evaluated rows of the table, in catalog-then-custom order. -/
def dbEvalRows (E : ℚ) (inp : DBInput) : List EvalRow :=
  (dbWithCustom inp).map (evalRowOf E inp)

/-- Comparison used to sort the passing segment: `SLS Utilisation`
descending. -/
def slsDesc (a b : EvalRow) : Prop := b.slsUtil ≤ a.slsUtil

/-- Comparison used to sort the failing segment: `Max Utilisation`
ascending. -/
def maxAsc (a b : EvalRow) : Prop := a.maxUtil ≤ b.maxUtil

instance : DecidableRel slsDesc := fun a b => by
  unfold slsDesc; infer_instance

instance : DecidableRel maxAsc := fun a b => by
  unfold maxAsc; infer_instance

instance : IsTotal EvalRow slsDesc :=
  ⟨fun a b => (le_total b.slsUtil a.slsUtil).imp id id⟩

instance : IsTrans EvalRow slsDesc :=
  ⟨fun _ _ _ h₁ h₂ => le_trans h₂ h₁⟩

instance : IsTotal EvalRow maxAsc :=
  ⟨fun a b => (le_total a.maxUtil b.maxUtil).imp id id⟩

instance : IsTrans EvalRow maxAsc :=
  ⟨fun _ _ _ h₁ h₂ => le_trans h₁ h₂⟩

/-- `df_pass`: rows with `Max Utilisation ≤ 1.0`. -/
def dbPass (E : ℚ) (inp : DBInput) : List EvalRow :=
  (dbEvalRows E inp).filter (fun r => decide (r.maxUtil ≤ 1))

/-- `df_fail`: rows with `Max Utilisation > 1.0`. -/
def dbFail (E : ℚ) (inp : DBInput) : List EvalRow :=
  (dbEvalRows E inp).filter (fun r => decide (1 < r.maxUtil))

/-- The ranked table: partition into passing (`Max Utilisation ≤ 1.0`)
and failing (`> 1.0`), sort the passing segment by `SLS Utilisation`
descending and the failing one by `Max Utilisation` ascending, then
concatenate passing before failing (lines 311-321). -/
def dbRowsOf (E : ℚ) (inp : DBInput) : List EvalRow :=
  (dbPass E inp).insertionSort slsDesc ++ (dbFail E inp).insertionSort maxAsc

/-- `calc.generate_section_database` up to the ranked row list
(`df_sorted`); the subsequent column formatting and row styling are
presentation.  The only failure is a `KeyError` on an unknown material. -/
def generate_section_database (inp : DBInput) : Except String (List EvalRow) :=
  match material_props inp.plot_material with
  | none => Except.error "KeyError"
  | some mp => Except.ok (dbRowsOf mp.E inp)

/-! ### Helper lemmas -/

/-- Inversion of a successful `generate_plots` run. -/
lemma generate_plots_ok {inp : PlotsInput} {out : PlotsOut}
    (h : generate_plots inp = Except.ok out) :
    ∃ mp, material_props inp.plot_material = some mp ∧
      filteredOf inp ≠ [] ∧ out = plotsOutOf mp inp := by
  unfold generate_plots at h
  cases hm : material_props inp.plot_material with
  | none => rw [hm] at h; exact absurd h (by simp)
  | some mp =>
    rw [hm] at h
    dsimp only at h
    by_cases hf : filteredOf inp = []
    · rw [if_pos hf] at h; exact absurd h (by simp)
    · rw [if_neg hf] at h
      exact ⟨mp, rfl, hf, (Except.ok.injEq _ _ ▸ h).symm⟩

/-- Inversion of a successful `generate_section_database` run. -/
lemma generate_section_database_ok {inp : DBInput} {rows : List EvalRow}
    (h : generate_section_database inp = Except.ok rows) :
    ∃ mp, material_props inp.plot_material = some mp ∧
      rows = dbRowsOf mp.E inp := by
  unfold generate_section_database at h
  cases hm : material_props inp.plot_material with
  | none => rw [hm] at h; exact absurd h (by simp)
  | some mp =>
    rw [hm] at h
    dsimp only at h
    exact ⟨mp, rfl, (Except.ok.injEq _ _ ▸ h).symm⟩

/-- Both registered materials have positive yield strength and modulus. -/
lemma material_props_pos {m : String} {mp : MatProps}
    (h : material_props m = some mp) : 0 < mp.fy ∧ 0 < mp.E := by
  unfold material_props at h
  by_cases h1 : m = "Aluminium"
  · rw [if_pos h1] at h
    cases h
    exact ⟨by norm_num, by norm_num⟩
  · rw [if_neg h1] at h
    by_cases h2 : m = "Steel"
    · rw [if_pos h2] at h
      cases h
      exact ⟨by norm_num, by norm_num⟩
    · rw [if_neg h2] at h
      exact absurd h (by simp)

/-- Two distinct prefixes of equal length cannot both be prefixes of the
same string. -/
lemma pyStartsWith_disambig {s p q : String}
    (hlen : p.data.length = q.data.length) (hne : p.data ≠ q.data)
    (hp : pyStartsWith s p = true) : pyStartsWith s q = false := by
  unfold pyStartsWith at *
  rw [List.isPrefixOf_iff_prefix] at hp
  rw [Bool.eq_false_iff]
  intro hq
  rw [List.isPrefixOf_iff_prefix] at hq
  rcases List.prefix_or_prefix_of_prefix hp hq with hpq | hqp
  · exact hne (hpq.eq_of_length hlen)
  · exact hne (hqp.eq_of_length hlen.symm).symm

/-! ### C7: deflection limit policy -/

/-- C7.  For every span `L > 0` the deflection-limit function is
non-decreasing (hence produces no downward jump crossing a boundary),
and it is continuous at the two breakpoints: at `L = 3000` the value
agrees with both one-sided formulas `L/200` and `5 + L/300`, and at
`L = 7500` with both `5 + L/300` and `L/250`.  The cited example
`defl_limit(4000) = 5 + 4000/300` also holds. -/
theorem defl_limit_monotone_and_continuous :
    (∀ L₁ L₂ : ℚ, 0 < L₁ → L₁ ≤ L₂ →
      defl_limit_of L₁ ≤ defl_limit_of L₂) ∧
    defl_limit_of 3000 = 3000 / 200 ∧
    defl_limit_of 3000 = 5 + 3000 / 300 ∧
    defl_limit_of 7500 = 5 + 7500 / 300 ∧
    defl_limit_of 7500 = 7500 / 250 ∧
    defl_limit_of 4000 = 5 + 4000 / 300 := by
  refine ⟨fun L₁ L₂ _ hle => ?_, ?_, ?_, ?_, ?_, ?_⟩
  · unfold defl_limit_of
    by_cases h1 : L₁ ≤ 3000 <;> by_cases h2 : L₂ ≤ 3000 <;>
      by_cases h3 : L₁ < 7500 <;> by_cases h4 : L₂ < 7500 <;>
      simp only [h1, h2, h3, h4, if_true, if_false] <;> linarith
  · norm_num [defl_limit_of]
  · norm_num [defl_limit_of]
  · norm_num [defl_limit_of]
  · norm_num [defl_limit_of]
  · norm_num [defl_limit_of]

/-- Witness for C7 at concrete spans. -/
theorem defl_limit_monotone_witness :
    defl_limit_of 2500 ≤ defl_limit_of 5000 :=
  defl_limit_monotone_and_continuous.1 2500 5000 (by norm_num) (by norm_num)

/-! ### Concrete inputs used for witnesses and counterexamples -/

/-- Aluminium properties from `config.material_props`. -/
def aluProps : MatProps := ⟨160, 70000⟩

lemma material_props_alu : material_props "Aluminium" = some aluProps := by
  simp [material_props, aluProps]

/-- A plain catalog row used in concrete scenarios. -/
def exRow : SectionRow :=
  ⟨"S", "P", "Aluminium", false, 100, 1000000, 100000⟩

/-- Example scenario 1 of the spec: Aluminium, wind 1.0 kPa, bay 3000 mm,
span 4000 mm, barrier load 0, case ULS 1. -/
def exInp3 : PlotsInput :=
  { wind_pressure := 1, bay_width := 3000, mullion_length := 4000
    selected_barrier_load := 0, ULS_case := "ULS 1: 1.5WL + 0.75BL"
    SLS_case := "SLS 1: WL", df_selected := [exRow]
    plot_material := "Aluminium", selected_suppliers := ["S"]
    use_custom_section := false, custom_section_data := none }

/-- Direct form of a successful `generate_plots` run. -/
lemma generate_plots_ok_of {inp : PlotsInput} {mp : MatProps}
    (hm : material_props inp.plot_material = some mp)
    (hf : filteredOf inp ≠ []) :
    generate_plots inp = Except.ok (plotsOutOf mp inp) := by
  unfold generate_plots
  rw [hm]
  dsimp only
  rw [if_neg hf]

lemma filteredOf_exInp3 : filteredOf exInp3 = [exRow] := by
  simp [filteredOf, exInp3, exRow]

lemma generate_plots_exInp3 :
    generate_plots exInp3 = Except.ok (plotsOutOf aluProps exInp3) :=
  generate_plots_ok_of material_props_alu (by rw [filteredOf_exInp3]; simp)

/-! ### C3: ULS combinations and required section modulus -/

/-- C3.  The combined ULS moment follows the documented linear
combination for each recognized case id; the reported required modulus
is `M_ULS / fy / 1000` (mm³ → cm³); and in example scenario 1
(Aluminium, 1.0 kPa, bay 3000, span 4000, barrier 0, ULS 1) the
required modulus is 56.25 cm³ = 225/4. -/
theorem uls_combination_and_zreq :
    (∀ (s : String) (M_WL M_BL : ℚ), ∀ hs : pyStartsWith s "ULS 1" = true,
      M_ULS_of s M_WL M_BL = 3/2 * M_WL + 3/4 * M_BL) ∧
    (∀ (s : String) (M_WL M_BL : ℚ), ∀ hs : pyStartsWith s "ULS 2" = true,
      M_ULS_of s M_WL M_BL = 3/4 * M_WL + 3/2 * M_BL) ∧
    (∀ (s : String) (M_WL M_BL : ℚ), ∀ hs : pyStartsWith s "ULS 3" = true,
      M_ULS_of s M_WL M_BL = 3/2 * M_WL) ∧
    (∀ (s : String) (M_WL M_BL : ℚ), ∀ hs : pyStartsWith s "ULS 4" = true,
      M_ULS_of s M_WL M_BL = 3/2 * M_BL) ∧
    (∀ inp out, generate_plots inp = Except.ok out →
      out.M_ULS = M_ULS_of inp.ULS_case out.M_WL out.M_BL ∧
      out.Z_req_cm3 = out.M_ULS / out.fy / 1000) ∧
    zreqOfResult (generate_plots exInp3) = some (225/4) := by
  refine ⟨?_, ?_, ?_, ?_, ?_, ?_⟩
  · intro s a b hs
    simp [M_ULS_of, hs]
  · intro s a b hs
    have h1 := pyStartsWith_disambig (s := s) (p := "ULS 2") (q := "ULS 1")
      (by decide) (by decide) hs
    simp [M_ULS_of, hs, h1]
  · intro s a b hs
    have h1 := pyStartsWith_disambig (s := s) (p := "ULS 3") (q := "ULS 1")
      (by decide) (by decide) hs
    have h2 := pyStartsWith_disambig (s := s) (p := "ULS 3") (q := "ULS 2")
      (by decide) (by decide) hs
    simp [M_ULS_of, hs, h1, h2]
  · intro s a b hs
    have h1 := pyStartsWith_disambig (s := s) (p := "ULS 4") (q := "ULS 1")
      (by decide) (by decide) hs
    have h2 := pyStartsWith_disambig (s := s) (p := "ULS 4") (q := "ULS 2")
      (by decide) (by decide) hs
    have h3 := pyStartsWith_disambig (s := s) (p := "ULS 4") (q := "ULS 3")
      (by decide) (by decide) hs
    simp [M_ULS_of, hs, h1, h2, h3]
  · intro inp out h
    obtain ⟨mp, hm, hf, rfl⟩ := generate_plots_ok h
    exact ⟨rfl, rfl⟩
  · rw [generate_plots_exInp3]
    show some (plotsOutOf aluProps exInp3).Z_req_cm3 = some (225/4)
    rw [plotsOutOf_Z_req_cm3]
    unfold Z_req_cm3_of M_ULS_of
    rw [if_pos (show pyStartsWith exInp3.ULS_case "ULS 1" = true from
      by decide)]
    unfold M_WL_of M_BL_of wOf
    norm_num [exInp3, aluProps]

/-- Witness for C3: in example scenario 1 the combination and the 56.25cm³
figure are realized. -/
theorem uls_combination_and_zreq_witness :
    M_ULS_of "ULS 1: 1.5WL + 0.75BL" 8 4 = 3/2 * 8 + 3/4 * 4 ∧
    M_ULS_of "ULS 2: 0.75WL + 1.5BL" 8 4 = 3/4 * 8 + 3/2 * 4 ∧
    M_ULS_of "ULS 3: 1.5WL" 8 4 = 3/2 * 8 ∧
    M_ULS_of "ULS 4: 1.5BL" 8 4 = 3/2 * 4 ∧
    (plotsOutOf aluProps exInp3).M_ULS =
      M_ULS_of exInp3.ULS_case (plotsOutOf aluProps exInp3).M_WL
        (plotsOutOf aluProps exInp3).M_BL :=
  ⟨uls_combination_and_zreq.1 _ 8 4 (by decide),
   uls_combination_and_zreq.2.1 _ 8 4 (by decide),
   uls_combination_and_zreq.2.2.1 _ 8 4 (by decide),
   uls_combination_and_zreq.2.2.2.1 _ 8 4 (by decide),
   (uls_combination_and_zreq.2.2.2.2.1 exInp3 _ generate_plots_exInp3).1⟩

/-! ### C4: unknown ULS case id -/

/-- A request whose ULS case id matches none of the four recognized
prefixes. -/
def inpC4 : PlotsInput :=
  { exInp3 with ULS_case := "ULS 9: bogus" }

lemma generate_plots_inpC4 :
    generate_plots inpC4 = Except.ok (plotsOutOf aluProps inpC4) := by
  refine generate_plots_ok_of material_props_alu ?_
  have : filteredOf inpC4 = [exRow] := by simp [filteredOf, inpC4, exInp3, exRow]
  rw [this]; simp

/-- Counterexample to C4 as stated: on an unrecognized ULS case id the
engine does not fail — the evaluation succeeds and returns a result
(with required modulus 0), contrary to the claimed `InvalidLoadCase`
failure. -/
theorem unknown_uls_case_no_error :
    zreqOfResult (generate_plots inpC4) = some 0 := by
  rw [generate_plots_inpC4]
  show some (plotsOutOf aluProps inpC4).Z_req_cm3 = some 0
  have h1 : pyStartsWith inpC4.ULS_case "ULS 1" = false := by decide
  have h2 : pyStartsWith inpC4.ULS_case "ULS 2" = false := by decide
  have h3 : pyStartsWith inpC4.ULS_case "ULS 3" = false := by decide
  have h4 : pyStartsWith inpC4.ULS_case "ULS 4" = false := by decide
  simp [Z_req_cm3_of, M_ULS_of, h1, h2, h3, h4]

/-- C4 amended: an unrecognized ULS case id is not rejected; the `else`
branch silently sets `M_ULS = 0`, so the evaluation succeeds with a
zero required modulus. -/
theorem unknown_uls_case_yields_zero (inp : PlotsInput) (out : PlotsOut)
    (h : generate_plots inp = Except.ok out)
    (h1 : pyStartsWith inp.ULS_case "ULS 1" = false)
    (h2 : pyStartsWith inp.ULS_case "ULS 2" = false)
    (h3 : pyStartsWith inp.ULS_case "ULS 3" = false)
    (h4 : pyStartsWith inp.ULS_case "ULS 4" = false) :
    out.M_ULS = 0 ∧ out.Z_req_cm3 = 0 := by
  obtain ⟨mp, hm, hf, rfl⟩ := generate_plots_ok h
  constructor
  · simp [M_ULS_of, h1, h2, h3, h4]
  · simp [Z_req_cm3_of, M_ULS_of, h1, h2, h3, h4]

/-- Witness for C4's amended statement at the concrete bogus case id. -/
theorem unknown_uls_case_yields_zero_witness :
    (plotsOutOf aluProps inpC4).M_ULS = 0 ∧
    (plotsOutOf aluProps inpC4).Z_req_cm3 = 0 :=
  unknown_uls_case_yields_zero inpC4 _ generate_plots_inpC4
    (by decide) (by decide) (by decide) (by decide)

/-! ### C5: empty filtered catalog -/

/-- A custom section spec used in concrete scenarios. -/
def custC : CustomSection := ⟨"C", 120, 50, 500⟩

/-- A request whose filtered catalog is empty while a custom section is
supplied. -/
def inpC5 : PlotsInput :=
  { exInp3 with df_selected := [], use_custom_section := true
                custom_section_data := some custC }

/-- Counterexample to C5 as stated: the emptiness check of
`generate_plots` runs before the custom section is appended, so the
evaluation fails with the no-sections error even though a custom
section is supplied. -/
theorem no_sections_error_despite_custom :
    generate_plots inpC5 = Except.error "No sections selected." ∧
    inpC5.use_custom_section = true ∧
    inpC5.custom_section_data.isSome = true := by
  refine ⟨?_, rfl, rfl⟩
  unfold generate_plots
  rw [show material_props inpC5.plot_material = some aluProps from
    material_props_alu]
  dsimp only
  rw [if_pos (show filteredOf inpC5 = [] by simp [filteredOf, inpC5])]

/-- C5 amended: for a known material, the evaluation fails with the
no-sections error exactly when the material/supplier-filtered catalog is
empty — independently of whether a custom section is supplied, because
the check precedes the custom append. -/
theorem no_sections_error_iff (inp : PlotsInput) (mp : MatProps)
    (hm : material_props inp.plot_material = some mp) :
    generate_plots inp = Except.error "No sections selected." ↔
      filteredOf inp = [] := by
  unfold generate_plots
  rw [hm]
  dsimp only
  by_cases hf : filteredOf inp = []
  · rw [if_pos hf]; simp [hf]
  · rw [if_neg hf]; simp [hf]

/-- Witness for C5's amended statement: a concrete empty-filter request
with a custom section present is rejected. -/
theorem no_sections_error_iff_witness :
    generate_plots inpC5 = Except.error "No sections selected." :=
  (no_sections_error_iff inpC5 aluProps material_props_alu).mpr
    (by simp [filteredOf, inpC5])

/-! ### C9: sign of the derived requirements -/

/-- All-positive request with a short span (1200 mm) under the barrier
SLS case. -/
def inpC9 : PlotsInput :=
  { exInp3 with mullion_length := 1200, selected_barrier_load := 1
                SLS_case := "SLS 2: BL" }

lemma generate_plots_inpC9 :
    generate_plots inpC9 = Except.ok (plotsOutOf aluProps inpC9) := by
  refine generate_plots_ok_of material_props_alu ?_
  have : filteredOf inpC9 = [exRow] := by
    simp [filteredOf, inpC9, exInp3, exRow]
  rw [this]; simp

/-- Counterexample to C9 as stated: with every input positive (barrier
load 1 kN/m, span 1200 mm) and the barrier SLS case active, the derived
required second moment of area is negative, because
`0.75 L² < BARRIER_LENGTH²`. -/
theorem ireq_negative_at_small_span :
    0 < inpC9.wind_pressure ∧ 0 < inpC9.bay_width ∧
    0 < inpC9.mullion_length ∧ 0 < inpC9.selected_barrier_load ∧
    (ireqOfResult (generate_plots inpC9)).getD 0 < 0 := by
  refine ⟨by norm_num [inpC9, exInp3], by norm_num [inpC9, exInp3],
    by norm_num [inpC9, exInp3], by norm_num [inpC9, exInp3], ?_⟩
  rw [generate_plots_inpC9]
  show (plotsOutOf aluProps inpC9).I_req_cm4 < 0
  have hs : pyStartsWith inpC9.SLS_case "SLS 1" = false := by decide
  simp only [plotsOutOf, I_req_of, hs, Bool.false_eq_true, if_false]
  norm_num [F_BL_of, inpC9, exInp3, defl_limit_of, BARRIER_LENGTH, aluProps]

/-- C9 amended: the required modulus and the deflection limit are
non-negative for every all-positive request, and the required second
moment of area is non-negative under the wind SLS case always, and
under the barrier SLS case whenever `BARRIER_LENGTH² ≤ 0.75 L²` (it can
go negative for spans below that threshold, per the counterexample). -/
theorem derived_requirements_nonneg (inp : PlotsInput) (out : PlotsOut)
    (h : generate_plots inp = Except.ok out)
    (hw : 0 < inp.wind_pressure) (hb : 0 < inp.bay_width)
    (hL : 0 < inp.mullion_length)
    (hbl : 0 ≤ inp.selected_barrier_load) :
    0 ≤ out.Z_req_cm3 ∧ 0 ≤ out.defl_limit ∧
    (pyStartsWith inp.SLS_case "SLS 1" = true → 0 ≤ out.I_req_cm4) ∧
    (BARRIER_LENGTH ^ 2 ≤ 3/4 * inp.mullion_length ^ 2 →
      0 ≤ out.I_req_cm4) := by
  obtain ⟨mp, hm, hf, rfl⟩ := generate_plots_ok h
  obtain ⟨hfy, hE⟩ := material_props_pos hm
  have hw' : 0 ≤ wOf inp :=
    mul_nonneg (mul_nonneg hw.le (by norm_num)) hb.le
  have hMWL : 0 ≤ M_WL_of inp :=
    div_nonneg (mul_nonneg hw' (pow_nonneg hL.le 2)) (by norm_num)
  have hMBL : 0 ≤ M_BL_of inp :=
    div_nonneg (mul_nonneg (mul_nonneg hbl hb.le)
      (by norm_num [BARRIER_LENGTH])) (by norm_num)
  have hdl : 0 ≤ defl_limit_of inp.mullion_length := by
    unfold defl_limit_of
    split_ifs <;> linarith
  have hFBL : 0 ≤ F_BL_of inp := mul_nonneg hbl hb.le
  refine ⟨?_, hdl, ?_, ?_⟩
  · show 0 ≤ M_ULS_of inp.ULS_case (M_WL_of inp) (M_BL_of inp) / mp.fy / 1000
    have hM : 0 ≤ M_ULS_of inp.ULS_case (M_WL_of inp) (M_BL_of inp) := by
      unfold M_ULS_of
      split_ifs <;> linarith
    exact div_nonneg (div_nonneg hM hfy.le) (by norm_num)
  · intro hs
    show 0 ≤ I_req_of mp.E inp / 10000
    refine div_nonneg ?_ (by norm_num)
    unfold I_req_of
    rw [if_pos hs]
    refine div_nonneg ?_ ?_
    · exact mul_nonneg (mul_nonneg (by norm_num) hw')
        (pow_nonneg hL.le 4)
    · exact mul_nonneg (mul_nonneg (by norm_num) hE.le) hdl
  · intro hspan
    show 0 ≤ I_req_of mp.E inp / 10000
    refine div_nonneg ?_ (by norm_num)
    unfold I_req_of
    by_cases hs : pyStartsWith inp.SLS_case "SLS 1" = true
    · rw [if_pos hs]
      refine div_nonneg ?_ ?_
      · exact mul_nonneg (mul_nonneg (by norm_num) hw')
          (pow_nonneg hL.le 4)
      · exact mul_nonneg (mul_nonneg (by norm_num) hE.le) hdl
    · rw [if_neg hs]
      refine mul_nonneg (div_nonneg ?_ ?_) (by linarith)
      · exact mul_nonneg hFBL (by norm_num [BARRIER_LENGTH])
      · exact mul_nonneg (mul_nonneg (by norm_num) hE.le) hdl

/-- Witness for C9's amended statement at example scenario 1
(span 4000 mm, all checks applicable). -/
theorem derived_requirements_nonneg_witness :
    0 ≤ (plotsOutOf aluProps exInp3).Z_req_cm3 ∧
    0 ≤ (plotsOutOf aluProps exInp3).defl_limit ∧
    (pyStartsWith exInp3.SLS_case "SLS 1" = true →
      0 ≤ (plotsOutOf aluProps exInp3).I_req_cm4) ∧
    (BARRIER_LENGTH ^ 2 ≤ 3/4 * exInp3.mullion_length ^ 2 →
      0 ≤ (plotsOutOf aluProps exInp3).I_req_cm4) :=
  derived_requirements_nonneg exInp3 _ generate_plots_exInp3
    (by norm_num [exInp3]) (by norm_num [exInp3])
    (by norm_num [exInp3]) (by norm_num [exInp3])

/-! ### C10: SLS plot contains exactly the ULS-passed candidates -/

/-- C10.  An index is plotted in the SLS chart iff its candidate passed
the ULS check (`available_cm3 ≥ Z_req_cm3`); the candidate's deflection
plays no role in this selection. -/
theorem sls_plot_is_uls_passed (inp : PlotsInput) (out : PlotsOut)
    (h : generate_plots inp = Except.ok out) :
    ∀ i : ℕ, i ∈ out.slsIdx ↔
      ∃ c, out.cands[i]? = some c ∧ out.Z_req_cm3 ≤ c.avail := by
  obtain ⟨mp, hm, hf, rfl⟩ := generate_plots_ok h
  intro i
  simp only [plotsOutOf_slsIdx, plotsOutOf_cands, plotsOutOf_Z_req_cm3]
  unfold slsIdxOf
  rw [List.mem_filter, List.mem_range]
  constructor
  · rintro ⟨hlt, hp⟩
    have hgd : (ulsPassedOf mp inp).getD i false =
        decide (Z_req_cm3_of mp inp ≤ (candsOf inp)[i].avail) := by
      unfold ulsPassedOf
      rw [List.getD_eq_getElem?_getD, List.getElem?_map,
        List.getElem?_eq_getElem hlt]
      rfl
    rw [hgd] at hp
    exact ⟨(candsOf inp)[i], List.getElem?_eq_some_iff.mpr ⟨hlt, rfl⟩,
      of_decide_eq_true hp⟩
  · rintro ⟨c, hc, hle⟩
    obtain ⟨hlt, hceq⟩ := List.getElem?_eq_some_iff.mp hc
    refine ⟨hlt, ?_⟩
    have hgd : (ulsPassedOf mp inp).getD i false =
        decide (Z_req_cm3_of mp inp ≤ (candsOf inp)[i].avail) := by
      unfold ulsPassedOf
      rw [List.getD_eq_getElem?_getD, List.getElem?_map,
        List.getElem?_eq_getElem hlt]
      rfl
    rw [hgd, hceq]
    exact decide_eq_true hle

/-- Witness for C10 at example scenario 1, index 0. -/
theorem sls_plot_is_uls_passed_witness :
    0 ∈ (plotsOutOf aluProps exInp3).slsIdx ↔
      ∃ c, (plotsOutOf aluProps exInp3).cands[0]? = some c ∧
        (plotsOutOf aluProps exInp3).Z_req_cm3 ≤ c.avail :=
  sls_plot_is_uls_passed exInp3 _ generate_plots_exInp3 0

/-! ### C8: custom-section placement -/

/-- C8.  When a custom section is supplied, the candidate list of
`generate_plots` is the filtered catalog (in order) followed by exactly
one synthetic row with `Iyy = I·10000`, `Wyy = Z·1000`, supplier
`"Custom"` and reinforcement flag `true`; `generate_section_database`
builds its table input the same way. -/
theorem custom_section_placement :
    (∀ (inp : PlotsInput) (out : PlotsOut) (c : CustomSection),
      generate_plots inp = Except.ok out →
      inp.use_custom_section = true →
      inp.custom_section_data = some c →
      out.cands.map Cand.row =
        filteredOf inp ++ [customRowOf inp.plot_material c] ∧
      (customRowOf inp.plot_material c).Iyy = c.I * 10000 ∧
      (customRowOf inp.plot_material c).Wyy = c.Z * 1000 ∧
      (customRowOf inp.plot_material c).supplier = "Custom" ∧
      (customRowOf inp.plot_material c).reinf = true) ∧
    (∀ (inp : DBInput) (c : CustomSection),
      inp.use_custom_section = true →
      inp.custom_section_data = some c →
      dbWithCustom inp =
        dbFiltered inp ++ [customRowOf inp.plot_material c]) := by
  constructor
  · intro inp out c h hu hc
    obtain ⟨mp, hm, hf, rfl⟩ := generate_plots_ok h
    refine ⟨?_, rfl, rfl, rfl, rfl⟩
    show (candsOf inp).map Cand.row = _
    unfold candsOf
    rw [hu, hc]
    rw [List.map_append, List.map_map]
    rw [show (Cand.row ∘ fun r =>
      ({ row := r, avail := r.Wyy / 1000 } : Cand)) = id from rfl]
    rw [List.map_id]
    rfl
  · intro inp c hu hc
    unfold dbWithCustom
    rw [hu, hc]

/-- Input with a custom section on top of a non-empty catalog. -/
def inpC8 : PlotsInput :=
  { exInp3 with use_custom_section := true
                custom_section_data := some custC }

lemma generate_plots_inpC8 :
    generate_plots inpC8 = Except.ok (plotsOutOf aluProps inpC8) := by
  refine generate_plots_ok_of material_props_alu ?_
  have : filteredOf inpC8 = [exRow] := by
    simp [filteredOf, inpC8, exInp3, exRow]
  rw [this]; simp

/-- Witness for C8 at the concrete custom-section request. -/
theorem custom_section_placement_witness :
    (plotsOutOf aluProps inpC8).cands.map Cand.row =
      filteredOf inpC8 ++ [customRowOf inpC8.plot_material custC] ∧
    (customRowOf inpC8.plot_material custC).Iyy = custC.I * 10000 :=
  ⟨(custom_section_placement.1 inpC8 _ custC generate_plots_inpC8
      rfl rfl).1,
   (custom_section_placement.1 inpC8 _ custC generate_plots_inpC8
      rfl rfl).2.1⟩

/-! ### C2: the recommendation rule -/

lemma betterRec_or (a b : Entry3d) : betterRec a b = a ∨ betterRec a b = b := by
  unfold betterRec
  split_ifs <;> simp

lemma betterRec_depth_le_left (a b : Entry3d) :
    (betterRec a b).depth ≤ a.depth := by
  unfold betterRec
  split_ifs with h1 h2
  · exact h1.le
  · exact le_of_eq h2.1
  · exact le_rfl

lemma betterRec_depth_le_right (a b : Entry3d) :
    (betterRec a b).depth ≤ b.depth := by
  unfold betterRec
  split_ifs with h1 h2
  · exact le_rfl
  · exact le_rfl
  · exact le_of_not_lt h1

lemma betterRec_dist_left (a b : Entry3d)
    (h : a.depth = (betterRec a b).depth) :
    dist2 a ≤ dist2 (betterRec a b) := by
  unfold betterRec at h ⊢
  split_ifs at h ⊢ with h1 h2
  · exact absurd h1 (by rw [← h]; exact lt_irrefl _)
  · exact h2.2.le
  · exact le_rfl

lemma betterRec_dist_right (a b : Entry3d)
    (h : b.depth = (betterRec a b).depth) :
    dist2 b ≤ dist2 (betterRec a b) := by
  unfold betterRec at h ⊢
  split_ifs at h ⊢ with h1 h2
  · exact le_rfl
  · exact le_rfl
  · exact le_of_not_lt (fun hlt => h2 ⟨h, hlt⟩)

/-- Invariant of the recommendation fold: the accumulated entry is one of
the seen entries, has minimum depth among them, and maximum squared
utilisation distance among the seen minimum-depth entries. -/
lemma foldl_betterRec_spec (es : List Entry3d) :
    ∀ a : Entry3d,
      (es.foldl betterRec a = a ∨ es.foldl betterRec a ∈ es) ∧
      ((es.foldl betterRec a).depth ≤ a.depth ∧
        ∀ x ∈ es, (es.foldl betterRec a).depth ≤ x.depth) ∧
      ((a.depth = (es.foldl betterRec a).depth →
          dist2 a ≤ dist2 (es.foldl betterRec a)) ∧
        ∀ x ∈ es, x.depth = (es.foldl betterRec a).depth →
          dist2 x ≤ dist2 (es.foldl betterRec a)) := by
  induction es with
  | nil =>
    intro a
    exact ⟨Or.inl rfl, ⟨le_rfl, by simp⟩, ⟨fun _ => le_rfl, by simp⟩⟩
  | cons e es ih =>
    intro a
    obtain ⟨hmem, ⟨hda, hdall⟩, ⟨hta, htall⟩⟩ := ih (betterRec a e)
    have hfold : (e :: es).foldl betterRec a =
        es.foldl betterRec (betterRec a e) := rfl
    rw [hfold]
    refine ⟨?_, ⟨?_, ?_⟩, ⟨?_, ?_⟩⟩
    · rcases hmem with h | h
      · rcases betterRec_or a e with h' | h'
        · exact Or.inl (h.trans h')
        · exact Or.inr (by rw [h, h']; exact List.mem_cons_self e es)
      · exact Or.inr (List.mem_cons_of_mem e h)
    · exact hda.trans (betterRec_depth_le_left a e)
    · intro x hx
      rcases List.mem_cons.mp hx with rfl | hx'
      · exact hda.trans (betterRec_depth_le_right a x)
      · exact hdall x hx'
    · intro had
      have h2 : (betterRec a e).depth ≤ a.depth := betterRec_depth_le_left a e
      have hae : a.depth = (betterRec a e).depth :=
        le_antisymm (by rw [had]; exact hda) h2
      have hbr : (betterRec a e).depth =
          (es.foldl betterRec (betterRec a e)).depth :=
        le_antisymm (h2.trans_eq had) hda
      exact (betterRec_dist_left a e hae).trans (hta hbr)
    · intro x hx hxd
      rcases List.mem_cons.mp hx with rfl | hx'
      · have h2 : (betterRec a x).depth ≤ x.depth :=
          betterRec_depth_le_right a x
        have hxe : x.depth = (betterRec a x).depth :=
          le_antisymm (by rw [hxd]; exact hda) h2
        have hbr : (betterRec a x).depth =
            (es.foldl betterRec (betterRec a x)).depth :=
          le_antisymm (h2.trans_eq hxd) hda
        exact (betterRec_dist_right a x hxe).trans (hta hbr)
      · exact htall x hx' hxd

lemma recommend_eq_none_iff (l : List Entry3d) :
    recommend l = none ↔ l = [] := by
  cases l <;> simp [recommend]

/-- The recommended entry belongs to the scanned list, has minimum
depth, and maximum squared distance among the minimum-depth entries. -/
lemma recommend_spec {l : List Entry3d} {e : Entry3d}
    (h : recommend l = some e) :
    e ∈ l ∧ (∀ x ∈ l, e.depth ≤ x.depth) ∧
      (∀ x ∈ l, x.depth = e.depth → dist2 x ≤ dist2 e) := by
  match l, h with
  | a :: es, h =>
    have he : es.foldl betterRec a = e := by
      have : some (es.foldl betterRec a) = some e := h
      exact Option.some.inj this
    obtain ⟨hmem, ⟨hda, hdall⟩, ⟨hta, htall⟩⟩ := foldl_betterRec_spec es a
    rw [he] at hmem hda hdall hta htall
    refine ⟨?_, ?_, ?_⟩
    · rcases hmem with h' | h'
      · rw [h']; exact List.mem_cons_self a es
      · exact List.mem_cons_of_mem a h'
    · intro x hx
      rcases List.mem_cons.mp hx with rfl | hx'
      · exact hda
      · exact hdall x hx'
    · intro x hx hxd
      rcases List.mem_cons.mp hx with rfl | hx'
      · exact hta hxd
      · exact htall x hx' hxd

lemma untop'_le_one {r : WithTop ℚ} (h : r ≤ 1) : r.untop' 0 ≤ 1 := by
  induction r using WithTop.recTopCoe with
  | top => exact absurd h (WithTop.not_top_le_coe 1)
  | coe q =>
    rw [WithTop.untop'_coe]
    exact_mod_cast h

/-- Every 3D-plot entry passes both checks (`ULS ≤ 1` and `SLS ≤ 1`). -/
lemma mem_entries3dOf {mp : MatProps} {inp : PlotsInput} {e : Entry3d}
    (he : e ∈ entries3dOf mp inp) : e.ulsU ≤ 1 ∧ e.slsU ≤ 1 := by
  unfold entries3dOf at he
  rw [List.mem_filterMap] at he
  obtain ⟨p, hp, hmk⟩ := he
  unfold mk3d at hmk
  by_cases h0 : p.2.1.avail = 0
  · rw [if_pos h0] at hmk
    exact absurd hmk (by simp)
  · rw [if_neg h0] at hmk
    by_cases hcond : Z_req_cm3_of mp inp / p.2.1.avail ≤ 1 ∧
        ratioSLS (defl_limit_of inp.mullion_length) p.2.2 ≤ 1
    · rw [if_pos hcond] at hmk
      obtain rfl := Option.some.inj hmk
      exact ⟨hcond.1, untop'_le_one hcond.2⟩
    · rw [if_neg hcond] at hmk
      exact absurd hmk (by simp)

/-- C2.  The recommendation is `none` iff no candidate reached the 3D
set (a distinct state produced on a successful run, not an error);
every 3D entry passes both checks; and a chosen recommendation is a 3D
entry of minimum depth whose combined utilisation distance
`sqrt(ULS² + SLS²)` is maximal among the entries sharing that minimum
depth. -/
theorem recommended_section_rule (inp : PlotsInput) (out : PlotsOut)
    (h : generate_plots inp = Except.ok out) :
    (out.recommendation = none ↔ out.entries3d = []) ∧
    (∀ x ∈ out.entries3d, x.ulsU ≤ 1 ∧ x.slsU ≤ 1) ∧
    (∀ e, out.recommendation = some e →
      e ∈ out.entries3d ∧
      (∀ x ∈ out.entries3d, e.depth ≤ x.depth) ∧
      (∀ x ∈ out.entries3d, x.depth = e.depth →
        Real.sqrt ((x.ulsU : ℝ) ^ 2 + (x.slsU : ℝ) ^ 2) ≤
          Real.sqrt ((e.ulsU : ℝ) ^ 2 + (e.slsU : ℝ) ^ 2))) := by
  obtain ⟨mp, hm, hf, rfl⟩ := generate_plots_ok h
  simp only [plotsOutOf_recommendation, plotsOutOf_entries3d]
  refine ⟨recommend_eq_none_iff _, fun x hx => mem_entries3dOf hx, ?_⟩
  intro e he
  obtain ⟨hmem, hmin, htie⟩ := recommend_spec he
  refine ⟨hmem, hmin, fun x hx hxd => ?_⟩
  have hd : dist2 x ≤ dist2 e := htie x hx hxd
  have hcast : ((dist2 x : ℚ) : ℝ) ≤ ((dist2 e : ℚ) : ℝ) := by exact_mod_cast hd
  have hx2 : ((dist2 x : ℚ) : ℝ) = (x.ulsU : ℝ) ^ 2 + (x.slsU : ℝ) ^ 2 := by
    unfold dist2; push_cast; ring
  have he2 : ((dist2 e : ℚ) : ℝ) = (e.ulsU : ℝ) ^ 2 + (e.slsU : ℝ) ^ 2 := by
    unfold dist2; push_cast; ring
  rw [hx2, he2] at hcast
  exact Real.sqrt_le_sqrt hcast

/-- Witness for C2 at example scenario 1. -/
theorem recommended_section_rule_witness :
    ((plotsOutOf aluProps exInp3).recommendation = none ↔
      (plotsOutOf aluProps exInp3).entries3d = []) ∧
    (∀ x ∈ (plotsOutOf aluProps exInp3).entries3d,
      x.ulsU ≤ 1 ∧ x.slsU ≤ 1) ∧
    (∀ e, (plotsOutOf aluProps exInp3).recommendation = some e →
      e ∈ (plotsOutOf aluProps exInp3).entries3d ∧
      (∀ x ∈ (plotsOutOf aluProps exInp3).entries3d, e.depth ≤ x.depth) ∧
      (∀ x ∈ (plotsOutOf aluProps exInp3).entries3d, x.depth = e.depth →
        Real.sqrt ((x.ulsU : ℝ) ^ 2 + (x.slsU : ℝ) ^ 2) ≤
          Real.sqrt ((e.ulsU : ℝ) ^ 2 + (e.slsU : ℝ) ^ 2))) :=
  recommended_section_rule exInp3 _ generate_plots_exInp3

/-! ### C1: the ranking partition invariant -/

/-- Direct form of a successful `generate_section_database` run. -/
lemma generate_section_database_ok_of {inp : DBInput} {mp : MatProps}
    (hm : material_props inp.plot_material = some mp) :
    generate_section_database inp = Except.ok (dbRowsOf mp.E inp) := by
  unfold generate_section_database
  rw [hm]

/-- C1.  The ranked table splits as a passing segment (every row with
`Max Utilisation ≤ 1.0`, sorted by `SLS Utilisation` descending)
followed by a failing segment (every row with `Max Utilisation > 1.0`,
sorted by `Max Utilisation` ascending). -/
theorem ranked_table_partition (inp : DBInput) (rows : List EvalRow)
    (h : generate_section_database inp = Except.ok rows) :
    ∃ l₁ l₂ : List EvalRow,
      rows = l₁ ++ l₂ ∧
      (∀ r ∈ l₁, r.maxUtil ≤ 1) ∧
      (∀ r ∈ l₂, 1 < r.maxUtil) ∧
      List.Sorted slsDesc l₁ ∧
      List.Sorted maxAsc l₂ := by
  obtain ⟨mp, hm, rfl⟩ := generate_section_database_ok h
  refine ⟨(dbPass mp.E inp).insertionSort slsDesc,
    (dbFail mp.E inp).insertionSort maxAsc, rfl, ?_, ?_, ?_, ?_⟩
  · intro r hr
    rw [List.mem_insertionSort] at hr
    exact of_decide_eq_true (List.mem_filter.mp hr).2
  · intro r hr
    rw [List.mem_insertionSort] at hr
    exact of_decide_eq_true (List.mem_filter.mp hr).2
  · exact List.sorted_insertionSort slsDesc _
  · exact List.sorted_insertionSort maxAsc _

/-- Catalog input for the ranked-table scenarios. -/
def dbInp1 : DBInput :=
  { df_selected := [exRow], plot_material := "Aluminium"
    selected_suppliers := ["S"], custom_section_data := none
    use_custom_section := false, wind_pressure := 1, bay_width := 3000
    mullion_length := 4000, selected_barrier_load := 0
    SLS_case := "SLS 1: WL", defl_limit := 55/3, Z_req_cm3 := 225/4 }

/-- Witness for C1 at a concrete one-row table. -/
theorem ranked_table_partition_witness :
    ∃ l₁ l₂ : List EvalRow,
      dbRowsOf aluProps.E dbInp1 = l₁ ++ l₂ ∧
      (∀ r ∈ l₁, r.maxUtil ≤ 1) ∧
      (∀ r ∈ l₂, 1 < r.maxUtil) ∧
      List.Sorted slsDesc l₁ ∧
      List.Sorted maxAsc l₂ :=
  ranked_table_partition dbInp1 _
    (generate_section_database_ok_of material_props_alu)

/-! ### C6: candidates with zero section modulus -/

/-- In the candidate arrays, `available_cm3` vanishes exactly for rows
with `Wyy = 0` (the custom candidate included, since its `Wyy` is
`Z·1000`). -/
lemma avail_eq_zero_iff {inp : PlotsInput} {c : Cand}
    (hc : c ∈ candsOf inp) : c.avail = 0 ↔ c.row.Wyy = 0 := by
  unfold candsOf at hc
  rw [List.mem_append] at hc
  rcases hc with hc | hc
  · rw [List.mem_map] at hc
    obtain ⟨r, _, rfl⟩ := hc
    show r.Wyy / 1000 = 0 ↔ r.Wyy = 0
    constructor
    · intro h
      have := div_eq_zero_iff.mp h
      rcases this with h' | h'
      · exact h'
      · exact absurd h' (by norm_num)
    · intro h
      rw [h]; norm_num
  · cases hu : inp.use_custom_section <;>
      cases hd : inp.custom_section_data <;>
      rw [hu, hd] at hc <;> simp at hc
    case true.some c0 =>
      subst hc
      show c0.Z = 0 ↔ (customRowOf inp.plot_material c0).Wyy = 0
      show c0.Z = 0 ↔ c0.Z * 1000 = 0
      constructor
      · intro h; rw [h]; ring
      · intro h
        rcases mul_eq_zero.mp h with h' | h'
        · exact h'
        · exact absurd h' (by norm_num)

/-- Every 3D entry originates from a candidate with non-zero
`available_cm3`. -/
lemma mem_entries3dOf_avail {mp : MatProps} {inp : PlotsInput}
    {e : Entry3d} (he : e ∈ entries3dOf mp inp) :
    ∃ c, (candsOf inp)[e.idx]? = some c ∧ c.avail ≠ 0 := by
  unfold entries3dOf at he
  rw [List.mem_filterMap] at he
  obtain ⟨p, hp, hmk⟩ := he
  rw [List.mem_enum_iff_getElem?] at hp
  rw [List.getElem?_zip_eq_some] at hp
  unfold mk3d at hmk
  by_cases h0 : p.2.1.avail = 0
  · rw [if_pos h0] at hmk
    exact absurd hmk (by simp)
  · rw [if_neg h0] at hmk
    by_cases hcond : Z_req_cm3_of mp inp / p.2.1.avail ≤ 1 ∧
        ratioSLS (defl_limit_of inp.mullion_length) p.2.2 ≤ 1
    · rw [if_pos hcond] at hmk
      obtain rfl := Option.some.inj hmk
      exact ⟨p.2.1, hp.1, h0⟩
    · rw [if_neg hcond] at hmk
      exact absurd hmk (by simp)

/-- The ranked table is a permutation of all evaluated rows: nothing is
dropped, zero-`Wyy` rows included. -/
lemma dbRowsOf_perm (E : ℚ) (inp : DBInput) :
    (dbRowsOf E inp).Perm (dbEvalRows E inp) := by
  unfold dbRowsOf
  refine ((List.perm_insertionSort slsDesc _).append
    (List.perm_insertionSort maxAsc _)).trans ?_
  have hq : dbFail E inp = (dbEvalRows E inp).filter
      (fun r => !(decide (r.maxUtil ≤ 1))) := by
    unfold dbFail
    refine List.filter_congr ?_
    intro r _
    by_cases hle : r.maxUtil ≤ 1
    · simp [hle, not_lt_of_le hle]
    · simp [hle, lt_of_not_le hle]
  rw [hq]
  exact List.filter_append_perm _ _

/-- C6 amended.  A candidate with `Wyy = 0` (equivalently, zero
`available_cm3`) is excluded from the 3D/joint-utilisation view; it is
retained in the ULS-plot data with a failing mark (whenever the required
modulus is positive) and omitted from the SLS plot; but it is NOT
excluded from the ranked section table, which keeps a row for every
evaluated candidate. -/
theorem wyy_zero_handling :
    (∀ (inp : PlotsInput) (out : PlotsOut),
      generate_plots inp = Except.ok out →
      (∀ c ∈ out.cands, (c.avail = 0 ↔ c.row.Wyy = 0)) ∧
      (∀ e ∈ out.entries3d, ∃ c, out.cands[e.idx]? = some c ∧ c.avail ≠ 0) ∧
      (0 < out.Z_req_cm3 → ∀ (i : ℕ) (c : Cand), out.cands[i]? = some c →
        c.avail = 0 →
        out.uls_passed[i]? = some false ∧ i ∉ out.slsIdx)) ∧
    (∀ (inp : DBInput) (rows : List EvalRow),
      generate_section_database inp = Except.ok rows →
      ∃ mp, material_props inp.plot_material = some mp ∧
        rows.Perm (dbEvalRows mp.E inp)) := by
  constructor
  · intro inp out h
    obtain ⟨mp, hm, hf, rfl⟩ := generate_plots_ok h
    simp only [plotsOutOf_cands, plotsOutOf_entries3d, plotsOutOf_Z_req_cm3,
      plotsOutOf_uls_passed, plotsOutOf_slsIdx]
    refine ⟨fun c hc => avail_eq_zero_iff hc, fun e he => mem_entries3dOf_avail he, ?_⟩
    intro hZ i c hc h0
    have hfail : ¬ (Z_req_cm3_of mp inp ≤ c.avail) := by
      rw [h0]; exact not_le_of_lt hZ
    constructor
    · show ((candsOf inp).map
        (fun c => decide (Z_req_cm3_of mp inp ≤ c.avail)))[i]? = some false
      rw [List.getElem?_map, hc]
      simp [hfail]
    · intro hmem
      unfold slsIdxOf at hmem
      rw [List.mem_filter] at hmem
      obtain ⟨hrange, hp⟩ := hmem
      rw [List.mem_range] at hrange
      obtain ⟨hlt, hceq⟩ := List.getElem?_eq_some_iff.mp hc
      have hgd : (ulsPassedOf mp inp).getD i false =
          decide (Z_req_cm3_of mp inp ≤ (candsOf inp)[i].avail) := by
        unfold ulsPassedOf
        rw [List.getD_eq_getElem?_getD, List.getElem?_map,
          List.getElem?_eq_getElem hlt]
        rfl
      rw [hgd, hceq] at hp
      exact hfail (of_decide_eq_true hp)
  · intro inp rows h
    obtain ⟨mp, hm, rfl⟩ := generate_section_database_ok h
    exact ⟨mp, hm, dbRowsOf_perm mp.E inp⟩

/-- A catalog row with zero section modulus. -/
def zRow : SectionRow := ⟨"S", "Z0", "Aluminium", false, 80, 1000000, 0⟩

/-- Table input whose only candidate has `Wyy = 0`, with a positive
required modulus. -/
def dbInp6 : DBInput :=
  { dbInp1 with df_selected := [zRow] }

lemma dbEvalRows_dbInp6 :
    dbEvalRows aluProps.E dbInp6 = [evalRowOf aluProps.E dbInp6 zRow] := by
  unfold dbEvalRows dbWithCustom dbFiltered
  simp [dbInp6, dbInp1, zRow]

lemma evalRowOf_zRow_maxUtil :
    (evalRowOf aluProps.E dbInp6 zRow).maxUtil = ⊤ := by
  show max (divTop dbInp6.Z_req_cm3 (zRow.Wyy / 1000)) _ = ⊤
  rw [show (zRow.Wyy / 1000 : ℚ) = 0 by norm_num [zRow]]
  unfold divTop
  rw [if_pos rfl]
  exact max_eq_left le_top

/-- Counterexample to C6 as stated: the ranked table produced by
`generate_section_database` retains the `Wyy = 0` candidate — it appears
(as the sole row, in the failing segment with infinite utilisation)
rather than being excluded from the ranked output. -/
theorem wyy_zero_in_ranked_output :
    generate_section_database dbInp6 =
      Except.ok [evalRowOf aluProps.E dbInp6 zRow] ∧
    zRow.Wyy = 0 ∧
    1 < (evalRowOf aluProps.E dbInp6 zRow).maxUtil := by
  refine ⟨?_, rfl, ?_⟩
  · rw [generate_section_database_ok_of material_props_alu]
    unfold dbRowsOf dbPass dbFail
    rw [dbEvalRows_dbInp6]
    have hp : decide ((evalRowOf aluProps.E dbInp6 zRow).maxUtil ≤ 1) = false := by
      rw [evalRowOf_zRow_maxUtil]
      simp [WithTop.not_top_le_coe]
    have hq : decide (1 < (evalRowOf aluProps.E dbInp6 zRow).maxUtil) = true := by
      rw [evalRowOf_zRow_maxUtil]
      simp
    rw [List.filter_cons, List.filter_cons, hp, hq]
    simp [List.insertionSort]
  · rw [evalRowOf_zRow_maxUtil]
    exact WithTop.coe_lt_top 1

/-- Witness for C6's amended statement at concrete runs. -/
theorem wyy_zero_handling_witness :
    (∀ c ∈ (plotsOutOf aluProps exInp3).cands,
      (c.avail = 0 ↔ c.row.Wyy = 0)) ∧
    (∃ mp, material_props dbInp1.plot_material = some mp ∧
      (dbRowsOf aluProps.E dbInp1).Perm (dbEvalRows mp.E dbInp1)) :=
  ⟨(wyy_zero_handling.1 exInp3 _ generate_plots_exInp3).1,
   wyy_zero_handling.2 dbInp1 _
     (generate_section_database_ok_of material_props_alu)⟩

end Mullion
